import Mathlib

/-!
Shallow embedding of `src/api_SSP_Korea.ipynb`: a sequential download loop
that enumerates (SSP scenario, climate element, 10-year period) triples,
builds a query-string URL for each, issues an HTTP GET, and streams the
response body to a file, catching request exceptions per job.

Static tables, the URL/file-name builders and the period generator are
translated directly from the notebook's cells.  The dynamic loop is
modelled with an explicit oracle (`world`) assigning each URL a request
outcome, an explicit file-system state, and an explicit run state
(progress counter, progress-display events, log lines, issued requests).
-/

set_option autoImplicit false

namespace SSPKorea

/-! ## Cell "0. Basic Settings": constants and static tables -/

/-- `save_dir = "/Users/lsj/NAS/SSP/South_Korea"` from the notebook. -/
def save_dir : String := "/Users/lsj/NAS/SSP/South_Korea"

/-- `base_url` from the notebook. -/
def base_url : String := "https://apihub-org.kma.go.kr/api/typ01/url/ssp_skorea_file_down.php"

/-- `auth_key` from the notebook. -/
def auth_key : String := "Or595fRNRNq-feX0TVTa7w"

/-- `ssp_scenarios` dict, modelled as an insertion-ordered association list
(Python dicts preserve insertion order, which fixes the loop order). -/
def ssp_scenarios : List (String × String) :=
  [("SSP1_2.6", "SSP126"),
   ("SSP2_4.5", "SSP245"),
   ("SSP3_7.0", "SSP370"),
   ("SSP5_8.5", "SSP585")]

/-- `basic_elements` dict (the seven uncommented entries), insertion-ordered. -/
def basic_elements : List (String × String) :=
  [("avg_temp", "TA"),
   ("max_temp", "TAMAX"),
   ("min_temp", "TAMIN"),
   ("precip", "RN"),
   ("rh", "RHM"),
   ("avg_wind_speed", "WS"),
   ("sol_rad", "SI")]

/-- `model = "5ENSMN"` from the notebook. -/
def model : String := "5ENSMN"

/-- `grid = "gridraw"` (1 km grid) from the notebook. -/
def grid : String := "gridraw"

/-- `time_rsltn = "daily"` from the notebook. -/
def time_rsltn : String := "daily"

/-- `frmat = "nc"` from the notebook. -/
def frmat : String := "nc"

/-- One entry of the notebook's `periods` list: a dict with keys
`st_year` and `ed_year`, both decimal year strings. -/
structure Period where
  st_year : String
  ed_year : String
deriving DecidableEq, Repr

/-- Python `range(start, stop, step)` for a positive `step`, as a list. -/
def pythonRange (start stop step : Nat) : List Nat :=
  (List.range ((stop - start + step - 1) / step)).map fun i => start + step * i

/-- The notebook's `periods` list: for `year_start in range(2021, 2100, 10)`,
append `{st_year: str(year_start), ed_year: str(year_start + 9)}`. -/
def periods : List Period :=
  (pythonRange 2021 2100 10).map fun year_start =>
    { st_year := toString year_start, ed_year := toString (year_start + 9) }

/-! ## Jobs: the cartesian product driven by the three nested loops -/

/-- One iteration of the innermost loop body is determined by the period and
the (label, code) pairs of the scenario and element. -/
structure Job where
  scenario_label : String
  rpt_val : String
  element_label : String
  elem_val : String
  st_year : String
  ed_year : String
deriving DecidableEq, Repr

/-- Build the job for one (period, scenario, element) triple. -/
def mkJob (p : Period) (s e : String × String) : Job :=
  { scenario_label := s.1, rpt_val := s.2,
    element_label := e.1, elem_val := e.2,
    st_year := p.st_year, ed_year := p.ed_year }

/-- All 224 loop iterations, in the notebook's nesting order:
outer loop over `periods`, middle over `ssp_scenarios`, inner over
`basic_elements`. -/
def jobs : List Job :=
  (periods.map fun p =>
    (ssp_scenarios.map fun s =>
      basic_elements.map fun e => mkJob p s e).flatten).flatten

/-- `total_tasks = len(periods) * len(ssp_scenarios) * len(basic_elements)`. -/
def total_tasks : Nat :=
  periods.length * ssp_scenarios.length * basic_elements.length

/-! ## URL and file-name construction -/

/-- The `params` dict built in the loop body, insertion-ordered. -/
def params (auth : String) (j : Job) : List (String × String) :=
  [("rpt", j.rpt_val),
   ("model", model),
   ("elem", j.elem_val),
   ("grid", grid),
   ("time_rsltn", time_rsltn),
   ("st_year", j.st_year),
   ("ed_year", j.ed_year),
   ("frmat", frmat),
   ("authKey", auth)]

/-- `query_string = "&".join(key=value for key, value in params.items())`. -/
def query_string (ps : List (String × String)) : String :=
  String.intercalate "&" (ps.map fun kv => kv.1 ++ "=" ++ kv.2)

/-- `api_url = base_url + "?" + query_string`. -/
def api_url (auth : String) (j : Job) : String :=
  base_url ++ "?" ++ query_string (params auth j)

/-- `file_name` built from the scenario code, element label and period years. -/
def file_name (j : Job) : String :=
  j.rpt_val ++ "_" ++ j.element_label ++ "_daily_" ++ j.st_year ++ "_" ++ j.ed_year ++ ".tar.gz"

/-- `os.path.join(dir, fname)` in the normal case of a relative second
component and a first component without a trailing separator. -/
def pathJoin (dir fname : String) : String := dir ++ "/" ++ fname

/-! ## The dynamic loop

The network is modelled by an oracle mapping each requested URL to an
outcome: either `requests.get` raises a `requests.exceptions.RequestException`
(network error / timeout), or it returns a response with a status flag, an
optional `content-length` header value, and a body (a byte list). -/

/-- An HTTP response as observed by the loop body: `statusOk` is whether
`raise_for_status()` passes, `contentLengthHeader` is
`headers.get('content-length')`, `httpErrMsg` is `str(e)` of the
`HTTPError` raised when the status is not a success, and `body` is the
full byte stream. -/
structure HttpResponse where
  statusOk : Bool
  contentLengthHeader : Option String
  httpErrMsg : String
  body : List Nat
deriving DecidableEq, Repr

/-- Outcome of `requests.get(api_url, stream=True)`. -/
inductive ReqOutcome where
  /-- `requests.get` itself raises a `RequestException`; `msg` is `str(e)`. -/
  | netError (msg : String)
  /-- A response object is returned. -/
  | resp (r : HttpResponse)
deriving DecidableEq, Repr

/-- An exception that is NOT a `requests.exceptions.RequestException` and is
therefore not caught by the loop's `except` clause.  The one arising in the
modelled code path is the `ValueError` raised by `int(s)` on a string `s`
that is not an integer literal. -/
inductive PyError where
  | valueError (s : String)
deriving DecidableEq, Repr

/-- Accumulate the decimal value of a digit string; `none` as soon as a
non-digit character appears. -/
def pyIntOfChars : List Char → Nat → Option Nat
  | [], acc => some acc
  | c :: cs, acc =>
    if 48 ≤ c.toNat ∧ c.toNat ≤ 57 then pyIntOfChars cs (acc * 10 + (c.toNat - 48))
    else none

/-- Python's `int(s)` restricted to the shapes a content-length header can
take: `some` of the value for a non-empty string of decimal digits, `none`
(standing for a raised `ValueError`) otherwise. -/
def pyInt (s : String) : Option Nat :=
  match s.data with
  | [] => none
  | l => pyIntOfChars l 0

/-- `int(response.headers.get('content-length', 0))`: a missing header gives
the integer default `0`; a present header string is parsed with Python's
`int`, which raises `ValueError` on a non-numeric string. -/
def parse_content_length : Option String → Except PyError Nat
  | none => .ok 0
  | some s =>
    match pyInt s with
    | some n => .ok n
    | none => .error (.valueError s)

/-- `chunk_size=4096` passed to `iter_content`. -/
def chunk_size : Nat := 4096

/-- `response.iter_content(chunk_size=4096)`: the body split into successive
chunks of 4096 bytes (the last chunk may be shorter). -/
def iter_content : List Nat → List (List Nat)
  | [] => []
  | b :: bs => ((b :: bs).take chunk_size) :: iter_content ((b :: bs).drop chunk_size)
termination_by l => l.length
decreasing_by simp [chunk_size]; omega

/-- One `pbar.set_postfix` call.  The real display renders the byte counts
in MB rounded to two decimals; the event records the underlying byte
counts (`downloaded` and `total_size`) plus the file name. -/
structure ProgressUpdate where
  file : String
  downloadedBytes : Nat
  totalBytes : Nat
deriving DecidableEq, Repr

/-- The `for data in response.iter_content(...)` loop with accumulator
`downloaded`: returns the bytes written to the open file (in order) and the
`set_postfix` events it emits, one after each chunk. -/
def write_loop (fname : String) (total : Nat) : List (List Nat) → Nat → List Nat × List ProgressUpdate
  | [], _ => ([], [])
  | c :: cs, downloaded =>
    let d := downloaded + c.length
    let rest := write_loop fname total cs d
    (c ++ rest.1, { file := fname, downloadedBytes := d, totalBytes := total } :: rest.2)

/-- The file-system state: whether the save directory exists, and the byte
contents of each path that holds a file. -/
structure FS where
  dirExists : Bool
  files : String → Option (List Nat)

/-- Overwrite (or create) the file at `path` with `contents`; this is the
net effect of `open(file_path, 'wb')` followed by the writes of the block. -/
def FS.write (fs : FS) (path : String) (contents : List Nat) : FS :=
  { fs with files := fun n => if n = path then some contents else fs.files n }

/-- The failure line printed by `tqdm.write` in the `except` clause. -/
def download_failed_msg (fname msg : String) : String :=
  "Download failed: " ++ fname ++ " - " ++ msg

/-- One iteration of the innermost loop body (the `try`/`except` block) for
job `j`, starting from file system `fs`.  Returns the new file system, the
`set_postfix` events and the log lines of this job — or propagates a
`PyError` when an exception other than a `RequestException` is raised
(nothing after the raise point runs, so the job contributes no state
change beyond what happened before the raise). -/
def runJob (world : String → ReqOutcome) (auth dir : String) (fs : FS) (j : Job) :
    Except PyError (FS × List ProgressUpdate × List String) :=
  let fname := file_name j
  let fpath := pathJoin dir fname
  match world (api_url auth j) with
  | .netError msg =>
    -- requests.get raised; caught by the except clause before any file is opened
    .ok (fs, [], [download_failed_msg fname msg])
  | .resp r =>
    if r.statusOk then
      match parse_content_length r.contentLengthHeader with
      | .error e =>
        -- int() raised ValueError: not a RequestException, so it propagates;
        -- the raise happens before open(file_path, 'wb')
        .error e
      | .ok total_size =>
        if total_size = 0 then
          -- unknown size: f.write(response.content), no set_postfix call
          .ok (fs.write fpath r.body, [], [])
        else
          let w := write_loop fname total_size (iter_content r.body) 0
          .ok (fs.write fpath w.1, w.2, [])
    else
      -- raise_for_status() raised HTTPError (a RequestException), caught
      -- before open(file_path, 'wb'): the file system is untouched
      .ok (fs, [], [download_failed_msg fname r.httpErrMsg])

/-- Observable run state threaded through the loop: the file system, the
`pbar` completed-job counter, the `set_postfix` events, the failure log
lines, and the URLs requested so far (one `requests.get` per job body). -/
structure RunState where
  fs : FS
  pbarCount : Nat
  events : List ProgressUpdate
  log : List String
  requested : List String

/-- Result of running (a suffix of) the loop: normal completion, or
termination by an uncaught exception together with the observable state at
the moment of the raise. -/
inductive RunResult where
  | ok (st : RunState)
  | raised (e : PyError) (st : RunState)

/-- The nested loops, flattened to a list of jobs processed in order.  Each
job body first issues its single GET (recorded in `requested`), then runs
the `try`/`except` block; `pbar.update(1)` runs after the block, so an
uncaught exception leaves the counter unincremented and abandons all
remaining jobs. -/
def runJobs (world : String → ReqOutcome) (auth dir : String) : List Job → RunState → RunResult
  | [], st => .ok st
  | j :: rest, st =>
    let st1 : RunState := { st with requested := st.requested ++ [api_url auth j] }
    match runJob world auth dir st.fs j with
    | .error e => .raised e st1
    | .ok (fs', evs, lg) =>
      runJobs world auth dir rest
        { fs := fs', pbarCount := st1.pbarCount + 1,
          events := st1.events ++ evs, log := st1.log ++ lg,
          requested := st1.requested }

/-- The whole download cell: `os.makedirs(save_dir, exist_ok=True)` (the
directory comes to exist, with no error if it already does), then the loop
over all jobs starting from a zeroed progress state over the caller's
initial file system. -/
def runAll (world : String → ReqOutcome) (auth dir : String) (fs0 : FS) : RunResult :=
  runJobs world auth dir jobs
    { fs := { fs0 with dirExists := true },
      pbarCount := 0, events := [], log := [], requested := [] }

/-! ## Helper lemmas about chunking and the write loop -/

/-- Concatenating the chunks of `iter_content` recovers the body. -/
theorem iter_content_flatten (l : List Nat) : (iter_content l).flatten = l := by
  induction l using iter_content.induct with
  | case1 => simp [iter_content]
  | case2 b bs ih => rw [iter_content]; simp [ih]

/-- Every chunk produced by `iter_content` has at most `chunk_size` bytes. -/
theorem iter_content_chunk_le (l : List Nat) :
    ∀ c ∈ iter_content l, c.length ≤ chunk_size := by
  induction l using iter_content.induct with
  | case1 => simp [iter_content]
  | case2 b bs ih =>
    rw [iter_content]
    intro c hc
    rcases List.mem_cons.mp hc with h | h
    · subst h; simp
    · exact ih c h

/-- The bytes written by the chunk loop are exactly the concatenation of the
chunks. -/
theorem write_loop_fst (fname : String) (total : Nat) (cs : List (List Nat)) (d : Nat) :
    (write_loop fname total cs d).1 = cs.flatten := by
  induction cs generalizing d with
  | nil => simp [write_loop]
  | cons c cs ih => simp [write_loop, ih]

/-- Cumulative byte counts starting from `d`: the `downloaded` value after
each chunk of the given sizes. -/
def cumFrom (d : Nat) : List Nat → List Nat
  | [] => []
  | x :: xs => (d + x) :: cumFrom (d + x) xs

/-- The chunk loop emits one progress event per chunk; each event carries
the file name, the running `downloaded` total, and `total_size`. -/
theorem write_loop_events (fname : String) (total : Nat) (cs : List (List Nat)) (d : Nat) :
    (write_loop fname total cs d).2.length = cs.length ∧
    (∀ e ∈ (write_loop fname total cs d).2, e.file = fname ∧ e.totalBytes = total) ∧
    (write_loop fname total cs d).2.map ProgressUpdate.downloadedBytes =
      cumFrom d (cs.map List.length) := by
  induction cs generalizing d with
  | nil => simp [write_loop, cumFrom]
  | cons c cs ih =>
    refine ⟨by simp [write_loop, (ih _).1], ?_, ?_⟩
    · intro e he
      rcases List.mem_cons.mp he with h | h
      · subst h; exact ⟨rfl, rfl⟩
      · exact (ih _).2.1 e h
    · simp [write_loop, cumFrom, (ih _).2.2]

/-! ## Per-job outcome predicates -/

/-- Whether `int(...)` on the given header value succeeds. -/
def parseOk (h : Option String) : Bool :=
  match parse_content_length h with
  | .ok _ => true
  | .error _ => false

/-- The job's body raises no uncaught exception: either the request fails
(caught `RequestException`), or the status check fails (caught), or the
content-length header parses. -/
def jobNoRaise (world : String → ReqOutcome) (auth : String) (j : Job) : Bool :=
  match world (api_url auth j) with
  | .netError _ => true
  | .resp r => !r.statusOk || parseOk r.contentLengthHeader

/-- The job downloads successfully: a response arrives, its status is a
success, and its content-length header (if any) parses. -/
def jobSucceeds (world : String → ReqOutcome) (auth : String) (j : Job) : Bool :=
  match world (api_url auth j) with
  | .netError _ => false
  | .resp r => r.statusOk && parseOk r.contentLengthHeader

/-- The body of the response the oracle assigns to a job's URL. -/
def bodyOf (world : String → ReqOutcome) (auth : String) (j : Job) : List Nat :=
  match world (api_url auth j) with
  | .netError _ => []
  | .resp r => r.body

/-- The job's request fails with a `RequestException` carrying message
`msg` — either of the two ways the loop body can produce one: `requests.get`
itself raises (network error / timeout), or a response arrives whose
non-success status makes `raise_for_status()` raise an `HTTPError`. -/
def jobFailsCaught (world : String → ReqOutcome) (auth : String) (j : Job) (msg : String) : Prop :=
  world (api_url auth j) = .netError msg ∨
  ∃ r, world (api_url auth j) = .resp r ∧ r.statusOk = false ∧ r.httpErrMsg = msg

/-- Either kind of caught request failure makes the job log the failure
line with its file name and the error message, touch nothing else, and
return normally to the loop. -/
theorem runJob_of_failsCaught (world : String → ReqOutcome) (auth dir : String) (fs : FS)
    (j : Job) (msg : String) (h : jobFailsCaught world auth j msg) :
    runJob world auth dir fs j =
      .ok (fs, [], [download_failed_msg (file_name j) msg]) := by
  rcases h with h | ⟨r, hw, hbad, hmsg⟩
  · unfold runJob; rw [h]
  · unfold runJob; rw [hw]
    simp [hbad, hmsg]

/-- A successful job writes exactly the response body to its derived path
and logs nothing. -/
theorem runJob_of_succeeds (world : String → ReqOutcome) (auth dir : String) (fs : FS)
    (j : Job) (h : jobSucceeds world auth j = true) :
    ∃ evs, runJob world auth dir fs j =
      .ok (fs.write (pathJoin dir (file_name j)) (bodyOf world auth j), evs, []) := by
  unfold jobSucceeds at h
  unfold runJob bodyOf
  cases hw : world (api_url auth j) with
  | netError msg => rw [hw] at h; simp at h
  | resp r =>
    rw [hw] at h
    simp only [Bool.and_eq_true] at h
    obtain ⟨hok, hp⟩ := h
    unfold parseOk at hp
    simp only [hok, if_true]
    cases hparse : parse_content_length r.contentLengthHeader with
    | error e => rw [hparse] at hp; simp at hp
    | ok n =>
      by_cases hn : n = 0
      · subst hn; simp
      · refine ⟨(write_loop (file_name j) n (iter_content r.body) 0).2, ?_⟩
        simp [hn, write_loop_fst, iter_content_flatten]

/-- A job whose body raises nothing completes in `.ok`, preserves the
directory flag, and changes no file other than the one at its own derived
path. -/
theorem runJob_of_noRaise (world : String → ReqOutcome) (auth dir : String) (fs : FS)
    (j : Job) (h : jobNoRaise world auth j = true) :
    ∃ fs' evs lg, runJob world auth dir fs j = .ok (fs', evs, lg) ∧
      fs'.dirExists = fs.dirExists ∧
      ∀ name, name ≠ pathJoin dir (file_name j) → fs'.files name = fs.files name := by
  unfold jobNoRaise at h
  unfold runJob
  cases hw : world (api_url auth j) with
  | netError msg => exact ⟨fs, _, _, rfl, rfl, fun _ _ => rfl⟩
  | resp r =>
    rw [hw] at h
    cases hok : r.statusOk with
    | false => simp only [hok, if_false]; exact ⟨fs, _, _, rfl, rfl, fun _ _ => rfl⟩
    | true =>
      simp only [hok, Bool.not_true, Bool.false_or] at h
      unfold parseOk at h
      simp only [hok, if_true]
      cases hparse : parse_content_length r.contentLengthHeader with
      | error e => rw [hparse] at h; simp at h
      | ok n =>
        by_cases hn : n = 0
        · subst hn
          refine ⟨_, _, _, rfl, rfl, fun name hne => ?_⟩
          simp [FS.write, hne]
        · simp only [hn, if_false]
          refine ⟨_, _, _, rfl, rfl, fun name hne => ?_⟩
          simp [FS.write, hne]

/-- Processing a concatenation of job lists runs the first list, then (if
no exception escaped) the second. -/
theorem runJobs_append (world : String → ReqOutcome) (auth dir : String)
    (l1 l2 : List Job) (st : RunState) :
    runJobs world auth dir (l1 ++ l2) st =
      match runJobs world auth dir l1 st with
      | .ok st' => runJobs world auth dir l2 st'
      | .raised e s => .raised e s := by
  induction l1 generalizing st with
  | nil => simp [runJobs]
  | cons j rest ih =>
    simp only [List.cons_append, runJobs]
    cases runJob world auth dir st.fs j with
    | error e => rfl
    | ok out => exact ih _

/-- Running a list of non-raising jobs completes normally, counts one
`pbar.update(1)` per job, issues exactly one request per job in order, and
only ever appends to the log. -/
theorem runJobs_of_noRaise (world : String → ReqOutcome) (auth dir : String) :
    ∀ (l : List Job) (st : RunState), (∀ j ∈ l, jobNoRaise world auth j = true) →
      ∃ st', runJobs world auth dir l st = .ok st' ∧
        st'.pbarCount = st.pbarCount + l.length ∧
        st'.requested = st.requested ++ l.map (api_url auth) ∧
        st'.fs.dirExists = st.fs.dirExists ∧
        ∀ m ∈ st.log, m ∈ st'.log := by
  intro l
  induction l with
  | nil => intro st _; exact ⟨st, rfl, by simp, by simp, rfl, fun m hm => hm⟩
  | cons j rest ih =>
    intro st hall
    obtain ⟨fs', evs, lg, hrun, hdir, _⟩ :=
      runJob_of_noRaise world auth dir st.fs j (hall j (List.mem_cons_self j rest))
    obtain ⟨st', hrun', hcount, hreq, hdir', hlog⟩ :=
      ih _ (fun j' hj' => hall j' (List.mem_cons_of_mem j hj'))
    refine ⟨st', ?_, ?_, ?_, ?_, ?_⟩
    · simp only [runJobs, hrun]; exact hrun'
    · simp only [hcount]; simp; omega
    · simp only [hreq]; simp
    · simp only [hdir']; exact hdir
    · intro m hm
      exact hlog m (by simp [hm])

/-- Running a list of successful jobs completes normally, preserves the
directory flag and every file outside the jobs' derived paths, and — when
the derived paths are pairwise distinct — leaves each job's path holding
exactly that job's response body. -/
theorem runJobs_of_succeeds (world : String → ReqOutcome) (auth dir : String) :
    ∀ (l : List Job) (st : RunState), (∀ j ∈ l, jobSucceeds world auth j = true) →
      ∃ st', runJobs world auth dir l st = .ok st' ∧
        st'.fs.dirExists = st.fs.dirExists ∧
        (∀ name, name ∉ l.map (fun j => pathJoin dir (file_name j)) →
          st'.fs.files name = st.fs.files name) ∧
        ((l.map fun j => pathJoin dir (file_name j)).Nodup →
          ∀ j ∈ l, st'.fs.files (pathJoin dir (file_name j)) = some (bodyOf world auth j)) := by
  intro l
  induction l with
  | nil => intro st _; exact ⟨st, rfl, rfl, fun _ _ => rfl, fun _ j hj => absurd hj (by simp)⟩
  | cons j rest ih =>
    intro st hall
    obtain ⟨evs, hrun⟩ :=
      runJob_of_succeeds world auth dir st.fs j (hall j (List.mem_cons_self j rest))
    set fs1 := st.fs.write (pathJoin dir (file_name j)) (bodyOf world auth j) with hfs1
    obtain ⟨st', hrun', hdir, hpres, hnd⟩ :=
      ih { fs := fs1, pbarCount := st.pbarCount + 1,
           events := st.events ++ evs, log := st.log ++ [],
           requested := st.requested ++ [api_url auth j] }
        (fun j' hj' => hall j' (List.mem_cons_of_mem j hj'))
    refine ⟨st', ?_, ?_, ?_, ?_⟩
    · simp only [runJobs, hrun]; exact hrun'
    · simpa [hfs1, FS.write] using hdir
    · intro name hname
      simp only [List.map_cons, List.mem_cons, not_or] at hname
      rw [hpres name (by simpa using hname.2)]
      simp [hfs1, FS.write, hname.1]
    · intro hnodup j' hj'
      simp only [List.map_cons, List.nodup_cons] at hnodup
      rcases List.mem_cons.mp hj' with h | h
      · subst h
        rw [hpres _ (by simpa using hnodup.1)]
        simp [hfs1, FS.write]
      · exact hnd hnodup.2 j' h

/-- Left cancellation for string concatenation. -/
theorem string_append_cancel_left {s a b : String} (h : s ++ a = s ++ b) : a = b := by
  have hd : s.data ++ a.data = s.data ++ b.data := by
    simpa [String.data_append] using congrArg String.data h
  exact String.ext (List.append_cancel_left hd)

/-- A numeric fingerprint of a string: a rolling hash of its characters.
No injectivity is needed anywhere: distinctness of the 224 concrete
fingerprints below transfers to the strings by `List.Nodup.of_map`. -/
def strKey (s : String) : Nat :=
  s.data.foldl (fun acc c => (acc * 131 + c.toNat) % 2305843009213693951) 1

set_option maxRecDepth 10000 in
set_option maxHeartbeats 1000000 in
/-- The fingerprints of the 224 derived file names, as literals. -/
theorem name_keys_eq : (jobs.map file_name).map strKey =
  [2146766898443858549,
   1397203099845734824,
   136427629705729132,
   479506403416154161,
   1365783208349566121,
   2099292673099124485,
   1668150761874786622,
   1911504808766568826,
   1161941010168445101,
   2207008549242133360,
   985378069845842433,
   356184320958714951,
   893380455217833356,
   1067891796966825675,
   713252473347798506,
   2269531683963368732,
   1008756213823363040,
   919469245951539723,
   2015655475676730787,
   749275908663522275,
   1657207903667946469,
   1771581232156660605,
   1022017433558536880,
   2067084972632225139,
   1345065839328299679,
   2124287787056451471,
   1773566616595517824,
   2070129414894845881,
   1894389588639346363,
   1144825790041222638,
   2189893329114910897,
   227129093611641975,
   1113405898545053935,
   1846915363294612299,
   1415773452070274436,
   1659127498962056640,
   909563700363932915,
   1954631239437621174,
   733000760041330247,
   103807011154202765,
   641003145413321170,
   815514487162313489,
   460875163543286320,
   2017154374158856546,
   756378904018850854,
   667091936147027537,
   1763278165872218601,
   496898598859010089,
   1404830593863434283,
   1519203922352148419,
   769640123754024694,
   1814707662827712953,
   1092688529523787493,
   1871910477251939285,
   1521189306791005638,
   1817752105090333695,
   1642012278834834177,
   892448480236710452,
   1937516019310398711,
   2280594793020823740,
   861028588740541749,
   1594538053490100113,
   1163396142265762250,
   1406750189157544454,
   657186390559420729,
   1702253929633108988,
   480623450236818061,
   2157272710563384530,
   388625835608808984,
   563137177357801303,
   208497853738774134,
   1764777064354344360,
   504001594214338668,
   414714626342515351,
   1510900856067706415,
   244521289054497903,
   1152453284058922097,
   1266826612547636233,
   517262813949512508,
   1562330353023200767,
   840311219719275307,
   1619533167447427099,
   1268811996986493452,
   1565374795285821509,
   1389634969030321991,
   640071170432198266,
   1685138709505886525,
   2028217483216311554,
   608651278936029563,
   1342160743685587927,
   911018832461250064,
   1154372879353032268,
   404809080754908543,
   1449876619828596802,
   228246140432305875,
   1904895400758872344,
   136248525804296798,
   310759867553289117,
   2261963553147955899,
   1512399754549832174,
   251624284409826482,
   162337316538003165,
   1258523546263194229,
   2297986988463679668,
   900075974254409911,
   1014449302743124047,
   264885504145000322,
   1309953043218688581,
   587933909914763121,
   1367155857642914913,
   1016434687181981266,
   1312997485481309323,
   1137257659225809805,
   387693860627686080,
   1432761399701374339,
   1775840173411799368,
   356273969131517377,
   1089783433881075741,
   658641522656737878,
   901995569548520082,
   152431770950396357,
   1197499310024084616,
   2281711839841487640,
   1652518090954360158,
   2189714225213478563,
   58382557748776931,
   2009586243343443713,
   1260022444745319988,
   2305089983819008247,
   2215803015947184930,
   1006146236458682043,
   2045609678659167482,
   647698664449897725,
   762071992938611861,
   12508194340488136,
   1057575733414176395,
   335556600110250935,
   1114778547838402727,
   764057377377469080,
   1060620175676797137,
   884880349421297619,
   135316550823173894,
   1180384089896862153,
   1523462863607287182,
   103896659327005191,
   837406124076563555,
   406264212852225692,
   649618259744007896,
   2205897470359578122,
   945122000219572430,
   2029334530036975454,
   1400140781149847972,
   1937336915408966377,
   2111848257157958696,
   1757208933538931527,
   1007645134940807802,
   2052712674014496061,
   1963425706142672744,
   753768926654169857,
   1793232368854655296,
   395321354645385539,
   509694683134099675,
   2065973893749669901,
   805198423609664209,
   83179290305738749,
   862401238033890541,
   511680067572956894,
   808242865872284951,
   632503039616785433,
   2188782250232355659,
   928006780092349967,
   1271085553802774996,
   2157362358736186956,
   585028814272051369,
   153886903047713506,
   397240949939495710,
   1953520160555065936,
   692744690415060244,
   1776957220232463268,
   1147763471345335786,
   1684959605604454191,
   1859470947353446510,
   1504831623734419341,
   755267825136295616,
   1800335364209983875,
   1711048396338160558,
   501391616849657671,
   1540855059050143110,
   142944044840873353,
   257317373329587489,
   1813596583945157715,
   552821113805152023,
   2136644989714920514,
   610023928229378355,
   259302757768444708,
   555865556067772765,
   1651108312707252604,
   901544514109128879,
   1946612053182817138,
   2289690826893242167,
   870124622612960176,
   1603634087362518540,
   1172492176138180677,
   1415846223029962881,
   666282424431839156,
   1711349963505527415,
   489719484109236488,
   2166368744435802957,
   397721869481227411,
   572233211230219730,
   217593887611192561,
   1773873098226762787,
   513097628086757095,
   423810660214933778,
   1519996889940124842,
   253617322926916330,
   1161549317931340524,
   1275922646420054660,
   526358847821930935,
   1571426386895619194,
   849407253591693734,
   1628629201319845526,
   1277908030858911879,
   1574470829158239936] := by decide

set_option maxRecDepth 10000 in
set_option maxHeartbeats 2000000 in
/-- The 224 derived file names are pairwise distinct: their fingerprints
are, and a list whose image is duplicate-free is duplicate-free. -/
theorem names_nodup : (jobs.map file_name).Nodup := by
  refine List.Nodup.of_map strKey ?_
  rw [name_keys_eq]
  decide

/-- The derived output paths are pairwise distinct for any save directory. -/
theorem paths_nodup (dir : String) :
    (jobs.map fun j => pathJoin dir (file_name j)).Nodup := by
  have h1 : (jobs.map fun j => pathJoin dir (file_name j)) =
      (jobs.map file_name).map (fun n => dir ++ "/" ++ n) := by
    simp [pathJoin, Function.comp_def]
  rw [h1]
  refine names_nodup.map ?_
  intro a b hab
  have hab' : dir ++ "/" ++ a = dir ++ "/" ++ b := hab
  exact string_append_cancel_left hab'

set_option maxRecDepth 4000 in
/-- There are as many loop iterations as `total_tasks` computes. -/
theorem jobs_length_total : jobs.length = total_tasks := by decide

/-- `total_tasks` evaluates to 224. -/
theorem total_tasks_eq : total_tasks = 224 := by decide

/-! ## Concrete fixtures used by witnesses and counterexamples -/

/-- An empty initial file system: no directory, no files. -/
def fs_empty : FS := { dirExists := false, files := fun _ => none }

/-- The first job of the run: first period, first scenario, first element. -/
def jb0 : Job := mkJob ⟨"2021", "2030"⟩ ("SSP1_2.6", "SSP126") ("avg_temp", "TA")

/-- An oracle returning a success response with no content-length header. -/
def world_no_length : String → ReqOutcome :=
  fun _ => .resp { statusOk := true, contentLengthHeader := none,
                   httpErrMsg := "", body := [1, 2, 3] }

/-- An oracle returning a success response declaring content-length 3 for a
3-byte body. -/
def world_len3 : String → ReqOutcome :=
  fun _ => .resp { statusOk := true, contentLengthHeader := some "3",
                   httpErrMsg := "", body := [10, 20, 30] }

/-- An oracle returning a 404-style failure response for every request. -/
def world_http_404 : String → ReqOutcome :=
  fun _ => .resp { statusOk := false, contentLengthHeader := none,
                   httpErrMsg := "404 Client Error", body := [] }

/-- An oracle returning a success response whose content-length header is
not numeric. -/
def world_bad_header : String → ReqOutcome :=
  fun _ => .resp { statusOk := true, contentLengthHeader := some "abc",
                   httpErrMsg := "", body := [1] }

/-! ## The claims -/

/-- C1: for every (scenario, element, period) triple, the constructed URL is
the fixed base endpoint, a `?`, and exactly nine `key=value` query
parameters joined by `&` — `rpt`, `model`, `elem`, `grid`, `time_rsltn`,
`st_year`, `ed_year`, `frmat`, `authKey`, in that order — whose values are
the triple's scenario code, element code and year strings, the compiled-in
constants `5ENSMN`, `gridraw`, `daily`, `nc`, and the auth token; no other
parameters are present. -/
theorem C1_url_exactly_nine_params (auth : String) (p : Period) (s e : String × String) :
    api_url auth (mkJob p s e) =
      base_url ++ "?" ++ String.intercalate "&"
        ["rpt=" ++ s.2, "model=5ENSMN", "elem=" ++ e.2, "grid=gridraw",
         "time_rsltn=daily", "st_year=" ++ p.st_year, "ed_year=" ++ p.ed_year,
         "frmat=nc", "authKey=" ++ auth] ∧
    (params auth (mkJob p s e)).map Prod.fst =
      ["rpt", "model", "elem", "grid", "time_rsltn", "st_year", "ed_year", "frmat", "authKey"] ∧
    (params auth (mkJob p s e)).map Prod.snd =
      [s.2, "5ENSMN", e.2, "gridraw", "daily", p.st_year, p.ed_year, "nc", auth] ∧
    (params auth (mkJob p s e)).length = 9 :=
  ⟨rfl, rfl, rfl, rfl⟩

/-- C2: the generated period list has exactly 8 entries — the contiguous,
non-overlapping decade spans 2021-2030 through 2091-2100, in order, ending
with (2091, 2100). -/
theorem C2_periods_eight_decades :
    periods =
      [⟨"2021", "2030"⟩, ⟨"2031", "2040"⟩, ⟨"2041", "2050"⟩, ⟨"2051", "2060"⟩,
       ⟨"2061", "2070"⟩, ⟨"2071", "2080"⟩, ⟨"2081", "2090"⟩, ⟨"2091", "2100"⟩] ∧
    periods.length = 8 := by
  exact ⟨by decide, by decide⟩

/-- C3: when one job's request fails with any caught failure kind —
network error, timeout (`requests.get` raises), or a non-success HTTP
status (`raise_for_status()` raises) — and no job raises an uncaught
exception, the run logs that job's failure with its file name and the
error message, issues exactly one request per job in order (no retry),
completes normally, and the job counter reaches `total_tasks` = 224. -/
theorem C3_failed_job_logged_run_completes
    (world : String → ReqOutcome) (auth dir : String) (fs0 : FS)
    (hall : ∀ j ∈ jobs, jobNoRaise world auth j = true)
    (jk : Job) (hjk : jk ∈ jobs) (msg : String)
    (hfail : jobFailsCaught world auth jk msg) :
    ∃ st, runAll world auth dir fs0 = .ok st ∧
      st.pbarCount = total_tasks ∧ total_tasks = 224 ∧
      st.requested = jobs.map (api_url auth) ∧
      download_failed_msg (file_name jk) msg ∈ st.log := by
  obtain ⟨l1, l2, hsplit⟩ := List.append_of_mem hjk
  have hall1 : ∀ j ∈ l1, jobNoRaise world auth j = true := by
    intro j hj; exact hall j (by rw [hsplit]; simp [hj])
  have hall2 : ∀ j ∈ l2, jobNoRaise world auth j = true := by
    intro j hj; exact hall j (by rw [hsplit]; simp [hj])
  unfold runAll
  rw [hsplit, runJobs_append]
  obtain ⟨st1, hrun1, hcount1, hreq1, _, hlog1⟩ :=
    runJobs_of_noRaise world auth dir l1
      { fs := { fs0 with dirExists := true },
        pbarCount := 0, events := [], log := [], requested := [] } hall1
  rw [hrun1]
  have hstep : runJob world auth dir st1.fs jk =
      .ok (st1.fs, [], [download_failed_msg (file_name jk) msg]) :=
    runJob_of_failsCaught world auth dir st1.fs jk msg hfail
  simp only [runJobs, hstep]
  obtain ⟨st2, hrun2, hcount2, hreq2, _, hlog2⟩ :=
    runJobs_of_noRaise world auth dir l2
      { fs := st1.fs, pbarCount := st1.pbarCount + 1,
        events := st1.events ++ [],
        log := st1.log ++ [download_failed_msg (file_name jk) msg],
        requested := st1.requested ++ [api_url auth jk] } hall2
  refine ⟨st2, hrun2, ?_, total_tasks_eq, ?_, ?_⟩
  · rw [hcount2]
    simp only [hcount1]
    have hlen : jobs.length = l1.length + 1 + l2.length := by
      rw [hsplit]; simp; omega
    rw [← jobs_length_total, hlen]
    omega
  · rw [hreq2]
    simp only [hreq1, hsplit]
    simp
  · refine hlog2 _ ?_
    simp

/-- C4: a success response whose content-length header declares exactly the
body's byte count yields a file holding exactly the body, whose length is
the declared count; the body is written as the concatenation of the
4096-byte chunks of `iter_content`. -/
theorem C4_success_known_length
    (world : String → ReqOutcome) (auth dir : String) (fs : FS) (j : Job)
    (r : HttpResponse) (s : String) (n : Nat)
    (hw : world (api_url auth j) = .resp r) (hok : r.statusOk = true)
    (hh : r.contentLengthHeader = some s) (hn : pyInt s = some n)
    (hlen : n = r.body.length) :
    ∃ evs, runJob world auth dir fs j =
        .ok (fs.write (pathJoin dir (file_name j)) r.body, evs, []) ∧
      (fs.write (pathJoin dir (file_name j)) r.body).files (pathJoin dir (file_name j)) =
        some r.body ∧
      r.body.length = n ∧
      (iter_content r.body).flatten = r.body ∧
      (∀ c ∈ iter_content r.body, c.length ≤ chunk_size) := by
  have hsucc : jobSucceeds world auth j = true := by
    unfold jobSucceeds; rw [hw]
    simp [hok, parseOk, parse_content_length, hh, hn]
  have hbody : bodyOf world auth j = r.body := by unfold bodyOf; rw [hw]
  obtain ⟨evs, hrun⟩ := runJob_of_succeeds world auth dir fs j hsucc
  rw [hbody] at hrun
  refine ⟨evs, hrun, ?_, hlen.symm, iter_content_flatten r.body, iter_content_chunk_le r.body⟩
  simp [FS.write]

/-- C5: a success response with no content-length header has its entire
body written in one operation (no chunk loop, hence no progress events),
and the resulting file holds exactly the body. -/
theorem C5_success_no_length
    (world : String → ReqOutcome) (auth dir : String) (fs : FS) (j : Job) (r : HttpResponse)
    (hw : world (api_url auth j) = .resp r) (hok : r.statusOk = true)
    (hh : r.contentLengthHeader = none) :
    runJob world auth dir fs j =
      .ok (fs.write (pathJoin dir (file_name j)) r.body, [], []) ∧
    (fs.write (pathJoin dir (file_name j)) r.body).files (pathJoin dir (file_name j)) =
      some r.body := by
  constructor
  · unfold runJob; rw [hw]
    simp [hok, hh, parse_content_length]
  · simp [FS.write]

/-- C6 as stated is false: for a successful download with no content-length
header the claim requires one progress update, but the code's no-length
branch calls `f.write(response.content)` without any `set_postfix`, so
zero updates are emitted. -/
theorem C6_counterexample :
    (runJob world_no_length "k" "d" fs_empty jb0).toOption.map (fun out => out.2.1) =
      some [] ∧ (List.length ([] : List ProgressUpdate) ≠ 1) := by
  exact ⟨rfl, by decide⟩

/-- C6 amended: during a successful download with a known nonzero content
length, the progress display is updated after every chunk written, each
update showing the current file name and the cumulative bytes written
versus the declared total (rendered in MB by the display); when no content
length is reported, no progress update is emitted at all. -/
theorem C6_amended_progress_updates
    (world : String → ReqOutcome) (auth dir : String) (fs : FS) (j : Job) (r : HttpResponse)
    (hw : world (api_url auth j) = .resp r) (hok : r.statusOk = true) :
    (r.contentLengthHeader = none →
      runJob world auth dir fs j =
        .ok (fs.write (pathJoin dir (file_name j)) r.body, [], [])) ∧
    (∀ s n, r.contentLengthHeader = some s → pyInt s = some n → n ≠ 0 →
      runJob world auth dir fs j =
        .ok (fs.write (pathJoin dir (file_name j))
              (write_loop (file_name j) n (iter_content r.body) 0).1,
             (write_loop (file_name j) n (iter_content r.body) 0).2, []) ∧
      (write_loop (file_name j) n (iter_content r.body) 0).2.length =
        (iter_content r.body).length ∧
      (∀ e ∈ (write_loop (file_name j) n (iter_content r.body) 0).2,
        e.file = file_name j ∧ e.totalBytes = n) ∧
      (write_loop (file_name j) n (iter_content r.body) 0).2.map
          ProgressUpdate.downloadedBytes =
        cumFrom 0 ((iter_content r.body).map List.length)) := by
  constructor
  · intro hh
    unfold runJob; rw [hw]
    simp [hok, hh, parse_content_length]
  · intro s n hh hn hnz
    refine ⟨?_, (write_loop_events _ _ _ _).1, (write_loop_events _ _ _ _).2.1,
      (write_loop_events _ _ _ _).2.2⟩
    unfold runJob; rw [hw]
    simp [hok, hh, parse_content_length, hn, hnz]

/-- C7: the run creates the output directory and, when every job succeeds,
rerunning over any initial file system — including one already holding
files from a prior run — leaves every job's output path holding exactly
the newly downloaded body: files are opened in overwrite mode with no
skip-if-exists check. -/
theorem C7_rerun_overwrites
    (world : String → ReqOutcome) (auth dir : String) (fs0 : FS)
    (hall : ∀ j ∈ jobs, jobSucceeds world auth j = true) :
    ∃ st, runAll world auth dir fs0 = .ok st ∧
      st.fs.dirExists = true ∧
      ∀ j ∈ jobs, st.fs.files (pathJoin dir (file_name j)) = some (bodyOf world auth j) := by
  obtain ⟨st, hrun, hdir, _, hnd⟩ :=
    runJobs_of_succeeds world auth dir jobs
      { fs := { fs0 with dirExists := true },
        pbarCount := 0, events := [], log := [], requested := [] } hall
  exact ⟨st, hrun, by simpa using hdir, hnd (paths_nodup dir)⟩

set_option maxRecDepth 4000 in
/-- C8: every job's file name is
`{scenarioCode}_{elementLabel}_daily_{startYear}_{endYear}.tar.gz`, the
224 jobs' derived names are pairwise distinct, and there are 224 jobs. -/
theorem C8_file_names_injective :
    (∀ j : Job, file_name j =
      j.rpt_val ++ "_" ++ j.element_label ++ "_daily_" ++ j.st_year ++ "_" ++
        j.ed_year ++ ".tar.gz") ∧
    (jobs.map file_name).Nodup ∧
    jobs.length = 224 :=
  ⟨fun _ => rfl, names_nodup, by decide⟩

/-- C9: on a non-success HTTP status the exception is raised by
`raise_for_status()` before `open(file_path, 'wb')` runs, so the job
returns with the file system exactly as it was — no file is created,
truncated or modified — and only the failure is logged. -/
theorem C9_http_failure_fs_unchanged
    (world : String → ReqOutcome) (auth dir : String) (fs : FS) (j : Job) (r : HttpResponse)
    (hw : world (api_url auth j) = .resp r) (hbad : r.statusOk = false) :
    runJob world auth dir fs j =
      .ok (fs, [], [download_failed_msg (file_name j) r.httpErrMsg]) := by
  unfold runJob; rw [hw]
  simp [hbad]

/-- C10: only `requests.exceptions.RequestException` is caught at the
per-job boundary: a `ValueError` from `int()` on a non-numeric
content-length header propagates, terminating the run at that job — the
remaining jobs are never attempted, the counter is not advanced, and the
only observable effect of the failing job is its single issued request. -/
theorem C10_uncaught_exception_terminates
    (world : String → ReqOutcome) (auth dir : String) (st : RunState)
    (j : Job) (rest : List Job) (r : HttpResponse) (s : String)
    (hw : world (api_url auth j) = .resp r) (hok : r.statusOk = true)
    (hh : r.contentLengthHeader = some s) (hbad : pyInt s = none) :
    runJobs world auth dir (j :: rest) st =
      .raised (.valueError s)
        { st with requested := st.requested ++ [api_url auth j] } := by
  have hjob : runJob world auth dir st.fs j = .error (.valueError s) := by
    unfold runJob; rw [hw]
    simp [hok, parse_content_length, hh, hbad]
  simp [runJobs, hjob]

/-! ## Witnesses: the claim theorems applied at concrete inputs -/

set_option maxRecDepth 10000 in
/-- Witness for C3 at the non-success-HTTP-status failure kind: with every
request answered by a 404-style response, the run completes with 224
attempts and logs the first job's failure line. -/
theorem C3_witness :
    ∃ st, runAll world_http_404 "k" "d" fs_empty = .ok st ∧
      st.pbarCount = total_tasks ∧ total_tasks = 224 ∧
      st.requested = jobs.map (api_url "k") ∧
      download_failed_msg (file_name jb0) "404 Client Error" ∈ st.log :=
  C3_failed_job_logged_run_completes world_http_404 "k" "d" fs_empty
    (by decide) jb0 (by decide) "404 Client Error"
    (Or.inr ⟨{ statusOk := false, contentLengthHeader := none,
               httpErrMsg := "404 Client Error", body := [] }, rfl, rfl, rfl⟩)

/-- Witness for C4: a 3-byte body with declared content-length 3. -/
theorem C4_witness :
    ∃ evs, runJob world_len3 "k" "d" fs_empty jb0 =
        .ok (fs_empty.write (pathJoin "d" (file_name jb0)) [10, 20, 30], evs, []) ∧
      (fs_empty.write (pathJoin "d" (file_name jb0)) [10, 20, 30]).files
        (pathJoin "d" (file_name jb0)) = some [10, 20, 30] ∧
      ([10, 20, 30] : List Nat).length = 3 ∧
      (iter_content [10, 20, 30]).flatten = [10, 20, 30] ∧
      (∀ c ∈ iter_content ([10, 20, 30] : List Nat), c.length ≤ chunk_size) :=
  C4_success_known_length world_len3 "k" "d" fs_empty jb0
    { statusOk := true, contentLengthHeader := some "3", httpErrMsg := "",
      body := [10, 20, 30] }
    "3" 3 rfl rfl rfl (by decide) (by decide)

/-- Witness for C5: a 3-byte body with no content-length header. -/
theorem C5_witness :
    runJob world_no_length "k" "d" fs_empty jb0 =
      .ok (fs_empty.write (pathJoin "d" (file_name jb0)) [1, 2, 3], [], []) ∧
    (fs_empty.write (pathJoin "d" (file_name jb0)) [1, 2, 3]).files
      (pathJoin "d" (file_name jb0)) = some [1, 2, 3] :=
  C5_success_no_length world_no_length "k" "d" fs_empty jb0
    { statusOk := true, contentLengthHeader := none, httpErrMsg := "", body := [1, 2, 3] }
    rfl rfl rfl

/-- Witness for the amended C6 at the declared-length-3 response. -/
theorem C6_amended_witness :
    ((some "3" : Option String) = none →
      runJob world_len3 "k" "d" fs_empty jb0 =
        .ok (fs_empty.write (pathJoin "d" (file_name jb0)) [10, 20, 30], [], [])) ∧
    (∀ s n, (some "3" : Option String) = some s → pyInt s = some n → n ≠ 0 →
      runJob world_len3 "k" "d" fs_empty jb0 =
        .ok (fs_empty.write (pathJoin "d" (file_name jb0))
              (write_loop (file_name jb0) n (iter_content [10, 20, 30]) 0).1,
             (write_loop (file_name jb0) n (iter_content [10, 20, 30]) 0).2, []) ∧
      (write_loop (file_name jb0) n (iter_content [10, 20, 30]) 0).2.length =
        (iter_content [10, 20, 30]).length ∧
      (∀ e ∈ (write_loop (file_name jb0) n (iter_content [10, 20, 30]) 0).2,
        e.file = file_name jb0 ∧ e.totalBytes = n) ∧
      (write_loop (file_name jb0) n (iter_content [10, 20, 30]) 0).2.map
          ProgressUpdate.downloadedBytes =
        cumFrom 0 ((iter_content [10, 20, 30]).map List.length)) :=
  C6_amended_progress_updates world_len3 "k" "d" fs_empty jb0
    { statusOk := true, contentLengthHeader := some "3", httpErrMsg := "",
      body := [10, 20, 30] }
    rfl rfl

/-- A file system already holding stale content at the first job's output
path, standing for the results of a prior run. -/
def fs_prior : FS :=
  { dirExists := true,
    files := fun n => if n = pathJoin "d" (file_name jb0) then some [9, 9] else none }

set_option maxRecDepth 10000 in
/-- Witness for C7: rerunning over a file system holding a stale file
leaves every job's path holding the fresh body. -/
theorem C7_witness :
    ∃ st, runAll world_len3 "k" "d" fs_prior = .ok st ∧
      st.fs.dirExists = true ∧
      ∀ j ∈ jobs, st.fs.files (pathJoin "d" (file_name j)) = some (bodyOf world_len3 "k" j) :=
  C7_rerun_overwrites world_len3 "k" "d" fs_prior (by decide)

/-- Witness for C9: a 404 response leaves the file system untouched. -/
theorem C9_witness :
    runJob world_http_404 "k" "d" fs_empty jb0 =
      .ok (fs_empty, [], [download_failed_msg (file_name jb0) "404 Client Error"]) :=
  C9_http_failure_fs_unchanged world_http_404 "k" "d" fs_empty jb0
    { statusOk := false, contentLengthHeader := none, httpErrMsg := "404 Client Error",
      body := [] }
    rfl rfl

/-- A zeroed run state for the C10 witness. -/
def st_empty : RunState :=
  { fs := fs_empty, pbarCount := 0, events := [], log := [], requested := [] }

/-- Witness for C10: a non-numeric content-length header terminates the run
at the first job. -/
theorem C10_witness :
    runJobs world_bad_header "k" "d" (jb0 :: []) st_empty =
      .raised (.valueError "abc")
        { st_empty with requested := st_empty.requested ++ [api_url "k" jb0] } :=
  C10_uncaught_exception_terminates world_bad_header "k" "d" st_empty jb0 []
    { statusOk := true, contentLengthHeader := some "abc", httpErrMsg := "", body := [1] }
    "abc" rfl rfl rfl rfl

end SSPKorea

